import Mathlib

/-!
# `scripts/update-index.js`

The script is a CommonJS module whose top level consists of six `const`
declarations and nothing else:

    const fs = require('fs');
    const path = require('path');
    const { Octokit } = require('@octokit/rest');
    const REPO_OWNER = 'DaiZhouHui';
    const REPO_NAME = 'CustomNode';
    const GITHUB_TOKEN = process.env.GITHUB_TOKEN;

It is embedded as a list of statements (`script`) over a small fragment of
JavaScript, run by a step function on an explicit state.  The state carries
the module-scope bindings together with everything a Node.js program could
touch through the three imports: the files on disk, the log of filesystem
calls and the log of remote requests.
-/

namespace UpdateIndex

/-! ## Syntax of the fragment -/

/-- Expressions: string literals, identifiers, property access `obj.field`,
calls `fn(args)` and instantiation with the `new` operator. -/
inductive Expr where
  | str (s : String)
  | ident (x : String)
  | member (obj : Expr) (field : String)
  | call (fn : Expr) (args : List Expr)
  | construct (cls : Expr) (args : List Expr)

/-- Top-level statements: `const x = e;`, `const { a, b } = e;`, the
assignment `x = e;` and the expression statement `e;`. -/
inductive Stmt where
  | constDecl (x : String) (init : Expr)
  | constObj (fields : List String) (init : Expr)
  | assign (x : String) (rhs : Expr)
  | expr (e : Expr)

/-- Source text of `scripts/update-index.js`, lines 2-4 and 7-9 (every other
line is blank or a comment). -/
def script : List Stmt :=
  [ .constDecl "fs" (.call (.ident "require") [.str "fs"]),
    .constDecl "path" (.call (.ident "require") [.str "path"]),
    .constObj ["Octokit"] (.call (.ident "require") [.str "@octokit/rest"]),
    .constDecl "REPO_OWNER" (.str "DaiZhouHui"),
    .constDecl "REPO_NAME" (.str "CustomNode"),
    .constDecl "GITHUB_TOKEN"
      (.member (.member (.ident "process") "env") "GITHUB_TOKEN") ]

/-! ## Values, errors and the world outside the script -/

/-- Runtime values of the fragment. -/
inductive Value where
  | undefined
  | str (s : String)
  | processObj
  | envObj
  | requireFn
  | moduleObj (name : String)
  | exported (moduleName field : String)
  | object (cls : String)
  | method (cls name : String)
  deriving DecidableEq, Repr

/-- Exceptions that abort the run when uncaught. `unsupported` marks a
construct that lies outside the modelled fragment. -/
inductive JsError where
  | referenceError (x : String)
  | typeError (what : String)
  | syntaxError (x : String)
  | moduleNotFound (m : String)
  | noSuchFile (p : String)
  | requestFailed
  | unsupported
  deriving DecidableEq, Repr

/-- One item of a remote listing, with the four attributes the specification
gives an index entry (section 3). -/
structure IndexEntry where
  name : String
  path : String
  url : String
  lastModified : String
  deriving DecidableEq, Repr

/-- What the remote source would answer to a listing request: a listing, a
network failure, or a payload that cannot be mapped to entries. -/
inductive Remote where
  | listing (entries : List IndexEntry)
  | networkFailure
  | malformed
  deriving DecidableEq, Repr

/-- The surroundings of one run: the process environment, the third-party
packages installed for `require` (package name and exported names), the files
on disk, and the state of the remote source. -/
structure World where
  env : List (String × String)
  installed : List (String × List String)
  files : List (String × String)
  remote : Remote
  deriving DecidableEq, Repr

/-- A call into the `fs` module. -/
inductive FsOp where
  | read (p : String)
  | write (p : String)
  | unlink (p : String)
  deriving DecidableEq, Repr

/-- Everything a run can change outside its own bindings. -/
structure Effects where
  files : List (String × String)
  fsOps : List FsOp
  requests : List String
  deriving DecidableEq, Repr

/-- Module-scope `const` bindings, oldest first. -/
abbrev Bindings := List (String × Value)

/-- State of the run between two statements; `error` holds the uncaught
exception once the run has aborted. -/
structure State where
  bindings : Bindings
  fx : Effects
  error : Option JsError
  deriving DecidableEq, Repr

/-! ## Semantics -/

/-- Node.js core modules used here, with the exports the model knows. -/
def coreModules : List (String × List String) :=
  [ ("fs", ["readFileSync", "writeFileSync", "unlinkSync"]),
    ("path", ["join", "resolve", "basename"]) ]

/-- Module resolution of `require`: core modules first, then installed
packages; `none` when the module cannot be found. -/
def resolveModule (w : World) (m : String) : Option (List String) :=
  match coreModules.lookup m with
  | some ex => some ex
  | none => w.installed.lookup m

/-- Identifier lookup: module-scope bindings, then the globals `require` and
`process`; anything else is a `ReferenceError`. -/
def lookupIdent (b : Bindings) (x : String) : Except JsError Value :=
  match b.lookup x with
  | some v => .ok v
  | none =>
    if x = "require" then .ok .requireFn
    else if x = "process" then .ok .processObj
    else .error (.referenceError x)

/-- Property access `v.field`. A variable missing from `process.env` reads as
`undefined`; reading a property of `undefined` throws a `TypeError`. -/
def getMember (w : World) (v : Value) (field : String) : Except JsError Value :=
  match v with
  | .undefined => .error (.typeError field)
  | .processObj => if field = "env" then .ok .envObj else .error .unsupported
  | .envObj =>
    match w.env.lookup field with
    | some s => .ok (.str s)
    | none => .ok .undefined
  | .moduleObj m =>
    match resolveModule w m with
    | some ex => if field ∈ ex then .ok (.exported m field) else .ok .undefined
    | none => .ok .undefined
  | .object cls =>
    if cls = "Octokit" ∧ field = "request" then .ok (.method cls field)
    else .error .unsupported
  | _ => .error .unsupported

/-- Application of a function value to evaluated arguments. -/
def applyFn (w : World) (f : Value) (args : List Value) (fx : Effects) :
    Effects × Except JsError Value :=
  match f, args with
  | .requireFn, [.str m] =>
    match resolveModule w m with
    | some _ => (fx, .ok (.moduleObj m))
    | none => (fx, .error (.moduleNotFound m))
  | .exported "fs" "readFileSync", .str p :: _ =>
    let fx1 := { fx with fsOps := fx.fsOps ++ [.read p] }
    match fx.files.lookup p with
    | some d => (fx1, .ok (.str d))
    | none => (fx1, .error (.noSuchFile p))
  | .exported "fs" "writeFileSync", [.str p, .str d] =>
    ({ fx with files := (p, d) :: fx.files.filter (fun q => q.1 != p),
               fsOps := fx.fsOps ++ [.write p] }, .ok .undefined)
  | .exported "fs" "unlinkSync", [.str p] =>
    let fx1 := { fx with fsOps := fx.fsOps ++ [.unlink p] }
    match fx.files.lookup p with
    | some _ => ({ fx1 with files := fx.files.filter (fun q => q.1 != p) }, .ok .undefined)
    | none => (fx1, .error (.noSuchFile p))
  | .method "Octokit" "request", .str route :: _ =>
    let fx1 := { fx with requests := fx.requests ++ [route] }
    match w.remote with
    | .networkFailure => (fx1, .error .requestFailed)
    | _ => (fx1, .ok (.object "Response"))
  | .undefined, _ => (fx, .error (.typeError "not a function"))
  | .str _, _ => (fx, .error (.typeError "not a function"))
  | _, _ => (fx, .error .unsupported)

/-- Instantiation `new C(args)` of an evaluated class value. -/
def constructWith (c : Value) (_args : List Value) (fx : Effects) :
    Effects × Except JsError Value :=
  match c with
  | .exported "@octokit/rest" "Octokit" => (fx, .ok (.object "Octokit"))
  | .undefined => (fx, .error (.typeError "not a constructor"))
  | .str _ => (fx, .error (.typeError "not a constructor"))
  | _ => (fx, .error .unsupported)

mutual
/-- Evaluation of an expression: effects are threaded left to right and kept
when an exception is thrown. -/
def eval (w : World) (b : Bindings) : Expr → Effects → Effects × Except JsError Value
  | .str s, fx => (fx, .ok (.str s))
  | .ident x, fx => (fx, lookupIdent b x)
  | .member o f, fx =>
    match eval w b o fx with
    | (fx1, .ok v) => (fx1, getMember w v f)
    | (fx1, .error e) => (fx1, .error e)
  | .call fn args, fx =>
    match eval w b fn fx with
    | (fx1, .ok f) =>
      match evalArgs w b args fx1 with
      | (fx2, .ok vs) => applyFn w f vs fx2
      | (fx2, .error e) => (fx2, .error e)
    | (fx1, .error e) => (fx1, .error e)
  | .construct cls args, fx =>
    match eval w b cls fx with
    | (fx1, .ok c) =>
      match evalArgs w b args fx1 with
      | (fx2, .ok vs) => constructWith c vs fx2
      | (fx2, .error e) => (fx2, .error e)
    | (fx1, .error e) => (fx1, .error e)
/-- Evaluation of an argument list, left to right. -/
def evalArgs (w : World) (b : Bindings) : List Expr → Effects → Effects × Except JsError (List Value)
  | [], fx => (fx, .ok [])
  | e :: es, fx =>
    match eval w b e fx with
    | (fx1, .ok v) =>
      match evalArgs w b es fx1 with
      | (fx2, .ok vs) => (fx2, .ok (v :: vs))
      | (fx2, .error err) => (fx2, .error err)
    | (fx1, .error err) => (fx1, .error err)
end

/-- Binding of the fields of an object pattern `{ a, b }` against a value. -/
def destructure (w : World) (v : Value) : List String → Except JsError Bindings
  | [] => if v = .undefined then .error (.typeError "destructure") else .ok []
  | f :: fs =>
    match getMember w v f with
    | .ok fv =>
      match fs with
      | [] => .ok [(f, fv)]
      | _ :: _ =>
        match destructure w v fs with
        | .ok rest => .ok ((f, fv) :: rest)
        | .error e => .error e
    | .error e => .error e

/-- Execution of one statement. A run that has aborted stays where it is. A
`const` binding is appended; lookup returns the oldest binding of a name, so a
binding once made is never overwritten. Assignment to a bound name throws (all
bindings are `const`); assignment to an unbound name is outside the fragment. -/
def execStmt (w : World) (s : State) (st : Stmt) : State :=
  match s.error with
  | some _ => s
  | none =>
    match st with
    | .constDecl x e =>
      match eval w s.bindings e s.fx with
      | (fx1, .ok v) => { s with bindings := s.bindings ++ [(x, v)], fx := fx1 }
      | (fx1, .error err) => { s with fx := fx1, error := some err }
    | .constObj fields e =>
      match eval w s.bindings e s.fx with
      | (fx1, .ok v) =>
        match destructure w v fields with
        | .ok bs => { s with bindings := s.bindings ++ bs, fx := fx1 }
        | .error err => { s with fx := fx1, error := some err }
      | (fx1, .error err) => { s with fx := fx1, error := some err }
    | .assign x e =>
      match eval w s.bindings e s.fx with
      | (fx1, .ok _) =>
        match s.bindings.lookup x with
        | some _ => { s with fx := fx1, error := some (.typeError "Assignment to constant variable.") }
        | none => { s with fx := fx1, error := some .unsupported }
      | (fx1, .error err) => { s with fx := fx1, error := some err }
    | .expr e =>
      match eval w s.bindings e s.fx with
      | (fx1, .ok _) => { s with fx := fx1 }
      | (fx1, .error err) => { s with fx := fx1, error := some err }

/-- Execution of a statement list from a state. -/
def exec (w : World) (prog : List Stmt) (s : State) : State :=
  prog.foldl (execStmt w) s

/-- State at process start: no bindings, the files of the world, empty logs. -/
def initState (w : World) : State :=
  { bindings := [], fx := { files := w.files, fsOps := [], requests := [] }, error := none }

/-- Names a statement declares. -/
def declaredBy : Stmt → List String
  | .constDecl x _ => [x]
  | .constObj fields _ => fields
  | _ => []

/-- Names a program declares, in order. -/
def declaredNames (prog : List Stmt) : List String :=
  prog.flatMap declaredBy

/-- Run of a whole program: a name declared twice is an early `SyntaxError`
(nothing executes); otherwise the statements run in order. -/
def runProgram (w : World) (prog : List Stmt) : State :=
  match (declaredNames prog).find? (fun x => 1 < (declaredNames prog).count x) with
  | some x => { initState w with error := some (.syntaxError x) }
  | none => exec w prog (initState w)

/-- One run of `scripts/update-index.js`. -/
def run (w : World) : State :=
  runProgram w script

/-- State of the run after its first `n` statements. -/
def stateAfter (w : World) (n : Nat) : State :=
  exec w (script.take n) (initState w)

/-- Exit code of the process: 1 after an uncaught exception, 0 otherwise. -/
def exitCode (s : State) : Nat :=
  match s.error with
  | some _ => 1
  | none => 0

/-! ## Syntactic observations -/

mutual
/-- Identifiers an expression refers to. -/
def Expr.idents : Expr → List String
  | .str _ => []
  | .ident x => [x]
  | .member o _ => o.idents
  | .call fn args => fn.idents ++ identsOfArgs args
  | .construct cls args => cls.idents ++ identsOfArgs args
/-- Identifiers an argument list refers to. -/
def identsOfArgs : List Expr → List String
  | [] => []
  | e :: es => e.idents ++ identsOfArgs es
end

mutual
/-- Number of instantiations (`new`) inside an expression. -/
def Expr.constructs : Expr → Nat
  | .str _ => 0
  | .ident _ => 0
  | .member o _ => o.constructs
  | .call fn args => fn.constructs + constructsOfArgs args
  | .construct cls args => 1 + cls.constructs + constructsOfArgs args
/-- Number of instantiations inside an argument list. -/
def constructsOfArgs : List Expr → Nat
  | [] => 0
  | e :: es => e.constructs + constructsOfArgs es
end

/-- The expression a statement evaluates. -/
def Stmt.body : Stmt → Expr
  | .constDecl _ e => e
  | .constObj _ e => e
  | .assign _ e => e
  | .expr e => e

/-- Identifiers a program refers to anywhere in its expressions. -/
def identifiersUsed (prog : List Stmt) : List String :=
  prog.flatMap (fun st => st.body.idents)

/-- Names a statement assigns to after their declaration. -/
def assignedBy : Stmt → List String
  | .assign x _ => [x]
  | _ => []

/-- Names a program reassigns. -/
def assignedNames (prog : List Stmt) : List String :=
  prog.flatMap assignedBy

/-! ## Configuration -/

/-- The three names that make up the configuration. -/
def configNames : List String :=
  ["REPO_OWNER", "REPO_NAME", "GITHUB_TOKEN"]

/-- The configuration as a record: owner, name and optional token. -/
structure Configuration where
  repoOwner : String
  repoName : String
  token : Option String
  deriving DecidableEq, Repr

/-- The configuration a finished run has loaded: read off the bindings of
`REPO_OWNER`, `REPO_NAME` and `GITHUB_TOKEN` of a run that did not abort; an
`undefined` token is an absent token. -/
def loadedConfig (s : State) : Option Configuration :=
  match s.error, s.bindings.lookup "REPO_OWNER", s.bindings.lookup "REPO_NAME",
      s.bindings.lookup "GITHUB_TOKEN" with
  | none, some (.str o), some (.str n), some (.str t) => some ⟨o, n, some t⟩
  | none, some (.str o), some (.str n), some .undefined => some ⟨o, n, none⟩
  | _, _, _, _ => none

/-- Value bound to `GITHUB_TOKEN`: the variable's string, or `undefined`. -/
def tokenValue (w : World) : Value :=
  match w.env.lookup "GITHUB_TOKEN" with
  | some s => .str s
  | none => .undefined

/-- Value bound to `Octokit` when the package exports the names `ex`. -/
def octokitValue (ex : List String) : Value :=
  if "Octokit" ∈ ex then .exported "@octokit/rest" "Octokit" else .undefined

/-- The script's one third-party dependency resolves. -/
def dependencyInstalled (w : World) : Prop :=
  (resolveModule w "@octokit/rest").isSome = true

instance (w : World) : Decidable (dependencyInstalled w) := by
  unfold dependencyInstalled; infer_instance

/-- Number of file writes a run has performed. -/
def writeCount (s : State) : Nat :=
  (s.fx.fsOps.filter (fun op => match op with | .write _ => true | _ => false)).length

/-- The world the next run starts in: the files are those the previous run
left, the environment, the packages and the remote source are unchanged. -/
def afterRun (w : World) : World :=
  { w with files := (run w).fx.files }

/-! ## Concrete worlds -/

/-- A world with the dependency installed and a token set. -/
def tokenWorld : World :=
  { env := [("HOME", "/root"), ("GITHUB_TOKEN", "ghp_abc")],
    installed := [("@octokit/rest", ["Octokit"])],
    files := [("index.json", "old")],
    remote := .listing [] }

/-- A world with the dependency installed and no token. -/
def anonymousWorld : World :=
  { env := [("HOME", "/root")],
    installed := [("@octokit/rest", ["Octokit"])],
    files := [("index.json", "old")],
    remote := .listing [] }

/-- A world whose remote source is unreachable, with an index on disk. -/
def offlineWorld : World :=
  { env := [],
    installed := [("@octokit/rest", ["Octokit"])],
    files := [("index.json", "old")],
    remote := .networkFailure }

/-- A world with nothing on disk whose remote lists `b.txt` before `a.txt`. -/
def unsortedWorld : World :=
  { env := [],
    installed := [("@octokit/rest", ["Octokit"])],
    files := [],
    remote := .listing [⟨"b.txt", "b.txt", "u2", "T2"⟩, ⟨"a.txt", "a.txt", "u1", "T1"⟩] }

/-- The first-run scenario: no local index, the remote lists the single entry
`a.txt`. -/
def firstRunWorld : World :=
  { env := [("GITHUB_TOKEN", "ghp_abc")],
    installed := [("@octokit/rest", ["Octokit"])],
    files := [],
    remote := .listing [⟨"a.txt", "a.txt", "u1", "T1"⟩] }

/-- A world with an index on disk that already holds the remote's one entry. -/
def settledWorld : World :=
  { env := [("GITHUB_TOKEN", "ghp_abc")],
    installed := [("@octokit/rest", ["Octokit"])],
    files := [("index.json", "a.txt")],
    remote := .listing [⟨"a.txt", "a.txt", "u1", "T1"⟩] }

/-! ## The run, computed for an arbitrary world -/

theorem resolve_fs (w : World) :
    resolveModule w "fs" = some ["readFileSync", "writeFileSync", "unlinkSync"] := by
  simp [resolveModule, coreModules, List.lookup]

theorem resolve_path (w : World) :
    resolveModule w "path" = some ["join", "resolve", "basename"] := by
  simp [resolveModule, coreModules, List.lookup]

theorem resolve_octokit (w : World) :
    resolveModule w "@octokit/rest" = w.installed.lookup "@octokit/rest" := by
  simp [resolveModule, coreModules, List.lookup]

/-- The script declares no name twice, so its run is the execution of its
statements from the initial state. -/
theorem run_eq_exec (w : World) : run w = exec w script (initState w) := by
  have h : (declaredNames script).find?
      (fun x => decide (1 < (declaredNames script).count x)) = none := by decide
  simp only [run, runProgram, h]

/-- The run is the state after all six statements. -/
theorem run_eq_stateAfter (w : World) : run w = stateAfter w 6 := by
  rw [run_eq_exec]; rfl

/-- Without the dependency the run aborts at the third import, having bound
`fs` and `path` only. -/
theorem run_missing (w : World) (h : w.installed.lookup "@octokit/rest" = none) :
    run w = { bindings := [("fs", .moduleObj "fs"), ("path", .moduleObj "path")],
              fx := { files := w.files, fsOps := [], requests := [] },
              error := some (.moduleNotFound "@octokit/rest") } := by
  rw [run_eq_exec]
  simp [script, exec, execStmt, eval, evalArgs,
    lookupIdent, applyFn, initState, resolve_fs, resolve_path, resolve_octokit, h, List.lookup]

/-- With the dependency installed the run completes with six bindings. -/
theorem run_installed (w : World) (ex : List String)
    (h : w.installed.lookup "@octokit/rest" = some ex) :
    run w = { bindings := [("fs", .moduleObj "fs"), ("path", .moduleObj "path"),
                           ("Octokit", octokitValue ex),
                           ("REPO_OWNER", .str "DaiZhouHui"), ("REPO_NAME", .str "CustomNode"),
                           ("GITHUB_TOKEN", tokenValue w)],
              fx := { files := w.files, fsOps := [], requests := [] },
              error := none } := by
  rw [run_eq_exec]
  cases hE : w.env.lookup "GITHUB_TOKEN" <;> by_cases hO : "Octokit" ∈ ex <;>
    simp [script, exec, execStmt, eval, evalArgs, lookupIdent, applyFn, initState, resolve_fs,
      resolve_path, resolve_octokit, h, List.lookup, destructure, getMember, octokitValue,
      tokenValue, hE, hO]

/-! ## Bindings are never overwritten -/

theorem lookup_append_of_some (b bs : Bindings) (x : String) (v : Value)
    (h : b.lookup x = some v) : (b ++ bs).lookup x = some v := by
  rw [List.lookup_append, h]; rfl

/-- One statement leaves every existing binding as it is. -/
theorem execStmt_keeps (w : World) (s : State) (st : Stmt) (x : String) (v : Value)
    (h : s.bindings.lookup x = some v) : (execStmt w s st).bindings.lookup x = some v := by
  unfold execStmt
  split
  · exact h
  · split <;> (repeat' split) <;>
      first
        | exact h
        | exact lookup_append_of_some _ _ _ _ h

/-- A statement list leaves every existing binding as it is. -/
theorem exec_keeps (w : World) (prog : List Stmt) (s : State) (x : String) (v : Value)
    (h : s.bindings.lookup x = some v) : (exec w prog s).bindings.lookup x = some v := by
  induction prog generalizing s with
  | nil => exact h
  | cons st rest ih => exact ih (execStmt w s st) (execStmt_keeps w s st x v h)

/-- A later point of the run is reached from an earlier one by executing the
statements in between. -/
theorem stateAfter_le (w : World) (n m : Nat) (h : n ≤ m) :
    stateAfter w m = exec w ((script.take m).drop n) (stateAfter w n) := by
  have hs : script.take m = script.take n ++ (script.take m).drop n := by
    have h1 := List.take_append_drop n (script.take m)
    rw [List.take_take, Nat.min_eq_left h] at h1
    exact h1.symm
  unfold stateAfter exec
  rw [← List.foldl_append, ← hs]

/-- In every world the run leaves the files alone and logs no filesystem call
and no remote request. -/
theorem run_fx (w : World) :
    (run w).fx = { files := w.files, fsOps := [], requests := [] } := by
  cases h : w.installed.lookup "@octokit/rest" with
  | none => rw [run_missing w h]
  | some ex => rw [run_installed w ex h]

/-- An installed dependency is a successful lookup among the packages. -/
theorem installed_lookup (w : World) (h : dependencyInstalled w) :
    ∃ ex, w.installed.lookup "@octokit/rest" = some ex := by
  unfold dependencyInstalled at h
  rw [resolve_octokit] at h
  cases hl : w.installed.lookup "@octokit/rest" with
  | none => rw [hl] at h; cases h
  | some ex => exact ⟨ex, rfl⟩

/-! ## The claims -/

/-- C1: for every process environment (and every set of installed packages,
files and remote state) the run of `scripts/update-index.js` leaves the files
on disk exactly as they were, performs no filesystem call, issues no remote
request, binds no name beyond the six it declares, never refers to `fs`,
`path` or `Octokit` after importing them, and contains no instantiation. -/
theorem run_only_binds (w : World) :
    (run w).fx.files = w.files ∧ (run w).fx.fsOps = [] ∧ (run w).fx.requests = [] ∧
    (∀ b ∈ (run w).bindings, b.1 ∈ declaredNames script) ∧
    (∀ x ∈ ["fs", "path", "Octokit"], x ∉ identifiersUsed script) ∧
    (script.map (fun st => st.body.constructs)).sum = 0 := by
  refine ⟨by rw [run_fx], by rw [run_fx], by rw [run_fx], ?_, by decide, by decide⟩
  cases h : w.installed.lookup "@octokit/rest" with
  | none =>
    rw [run_missing w h]
    intro b hb
    simp only [List.mem_cons, List.mem_singleton, List.not_mem_nil, or_false] at hb
    rcases hb with rfl | rfl <;> decide
  | some ex =>
    rw [run_installed w ex h]
    intro b hb
    simp only [List.mem_cons, List.mem_singleton, List.not_mem_nil, or_false] at hb
    rcases hb with rfl | rfl | rfl | rfl | rfl | rfl
    · decide
    · decide
    · show "Octokit" ∈ declaredNames script
      decide
    · decide
    · decide
    · show "GITHUB_TOKEN" ∈ declaredNames script
      decide

/-- C2: for every process environment, once the script's dependency resolves,
the run completes and the configuration it has loaded is
`repoOwner = "DaiZhouHui"`, `repoName = "CustomNode"` (both non-empty, whatever
the environment) and `token` = the value of `GITHUB_TOKEN` in the environment. -/
theorem config_loaded (w : World) (hdep : dependencyInstalled w) :
    ∃ c, loadedConfig (run w) = some c ∧
      c.repoOwner = "DaiZhouHui" ∧ c.repoName = "CustomNode" ∧
      c.token = w.env.lookup "GITHUB_TOKEN" ∧ c.repoOwner ≠ "" ∧ c.repoName ≠ "" := by
  obtain ⟨ex, h⟩ := installed_lookup w hdep
  refine ⟨⟨"DaiZhouHui", "CustomNode", w.env.lookup "GITHUB_TOKEN"⟩, ?_, rfl, rfl, rfl,
    (by decide : "DaiZhouHui" ≠ ""), (by decide : "CustomNode" ≠ "")⟩
  rw [run_installed w ex h]
  cases hE : w.env.lookup "GITHUB_TOKEN" <;>
    simp [loadedConfig, tokenValue, hE, List.lookup]

/-- Witness of C2 in a world with a token set. -/
theorem config_loaded_witness :
    dependencyInstalled tokenWorld ∧
    ∃ c, loadedConfig (run tokenWorld) = some c ∧
      c.repoOwner = "DaiZhouHui" ∧ c.repoName = "CustomNode" ∧
      c.token = tokenWorld.env.lookup "GITHUB_TOKEN" ∧ c.repoOwner ≠ "" ∧ c.repoName ≠ "" :=
  ⟨by decide, config_loaded tokenWorld (by decide)⟩

/-- C3: for every process environment in which `GITHUB_TOKEN` is not set, once
the script's dependency resolves, the run does not fail (no uncaught exception,
exit code 0), `GITHUB_TOKEN` is bound to `undefined`, and `REPO_OWNER` and
`REPO_NAME` are bound to their literals; the loaded configuration has no
token. -/
theorem token_optional (w : World) (hdep : dependencyInstalled w)
    (htok : w.env.lookup "GITHUB_TOKEN" = none) :
    (run w).error = none ∧ exitCode (run w) = 0 ∧
    (run w).bindings.lookup "GITHUB_TOKEN" = some .undefined ∧
    (run w).bindings.lookup "REPO_OWNER" = some (.str "DaiZhouHui") ∧
    (run w).bindings.lookup "REPO_NAME" = some (.str "CustomNode") ∧
    loadedConfig (run w) = some ⟨"DaiZhouHui", "CustomNode", none⟩ := by
  obtain ⟨ex, h⟩ := installed_lookup w hdep
  rw [run_installed w ex h]
  simp [loadedConfig, exitCode, tokenValue, htok, List.lookup]

/-- Witness of C3 in a world without a token. -/
theorem token_optional_witness :
    dependencyInstalled anonymousWorld ∧ anonymousWorld.env.lookup "GITHUB_TOKEN" = none ∧
    (run anonymousWorld).error = none ∧ exitCode (run anonymousWorld) = 0 ∧
    (run anonymousWorld).bindings.lookup "GITHUB_TOKEN" = some .undefined ∧
    (run anonymousWorld).bindings.lookup "REPO_OWNER" = some (.str "DaiZhouHui") ∧
    (run anonymousWorld).bindings.lookup "REPO_NAME" = some (.str "CustomNode") ∧
    loadedConfig (run anonymousWorld) = some ⟨"DaiZhouHui", "CustomNode", none⟩ :=
  ⟨by decide, by decide, token_optional anonymousWorld (by decide) (by decide)⟩

/-- C4: for every run in a world whose remote fetch would fail or whose remote
response is malformed, the files on disk after the run are those before it: at
every path the content is identical, and a file that was absent is absent. -/
theorem failed_remote_keeps_index (w : World) (p : String)
    (hremote : w.remote = .networkFailure ∨ w.remote = .malformed) :
    (run w).fx.files = w.files ∧
    (run w).fx.files.lookup p = w.files.lookup p ∧
    (w.files.lookup p = none → (run w).fx.files.lookup p = none) := by
  have h : (run w).fx.files = w.files := by rw [run_fx]
  rcases hremote with _ | _ <;> exact ⟨h, by rw [h], fun hp => by rw [h]; exact hp⟩

/-- Witness of C4: the remote is unreachable and `index.json` keeps its
content. -/
theorem failed_remote_keeps_index_witness :
    (offlineWorld.remote = .networkFailure ∨ offlineWorld.remote = .malformed) ∧
    (run offlineWorld).fx.files.lookup "index.json" = some "old" :=
  ⟨by decide, (failed_remote_keeps_index offlineWorld "index.json" (by decide)).2.1⟩

/-- C9: at every point of the run, a configuration constant that is bound keeps
its value at every later point; no statement of the script assigns to any
name, and the script declares each of the three constants exactly once. -/
theorem config_never_mutated (w : World) (n m : Nat) (x : String) (v : Value)
    (hx : x ∈ configNames) (hnm : n ≤ m)
    (hbound : (stateAfter w n).bindings.lookup x = some v) :
    (stateAfter w m).bindings.lookup x = some v ∧
    assignedNames script = [] ∧ (declaredNames script).count x = 1 := by
  refine ⟨?_, by decide, ?_⟩
  · rw [stateAfter_le w n m hnm]
    exact exec_keeps w _ _ x v hbound
  · simp only [configNames, List.mem_cons, List.mem_singleton, List.not_mem_nil, or_false] at hx
    rcases hx with rfl | rfl | rfl <;> decide

/-- Witness of C9: `REPO_OWNER`, bound by the fourth statement, has the same
value after the sixth. -/
theorem config_never_mutated_witness :
    (stateAfter tokenWorld 4).bindings.lookup "REPO_OWNER" = some (.str "DaiZhouHui") ∧
    (stateAfter tokenWorld 6).bindings.lookup "REPO_OWNER" = some (.str "DaiZhouHui") :=
  ⟨by decide,
   (config_never_mutated tokenWorld 4 6 "REPO_OWNER" (.str "DaiZhouHui")
      (by decide) (by decide) (by decide)).1⟩

/-- C5 as stated fails: the remote lists `b.txt` before `a.txt` and nothing is
on disk; the run writes no file and no file exists after it, so the program has
output no index, sorted or not. -/
theorem no_index_output_counterexample :
    ¬ ∃ p, FsOp.write p ∈ (run unsortedWorld).fx.fsOps ∨
        ∃ d, (run unsortedWorld).fx.files.lookup p = some d := by
  rintro ⟨p, h | ⟨d, h⟩⟩
  · rw [run_fx] at h
    cases h
  · rw [run_fx] at h
    cases h

/-- C5 amended: for every listing the remote source returns, in whatever order,
the script outputs no index: the run performs no filesystem call, leaves the
files on disk as they were, and is the same run whatever the listing. -/
theorem listing_ignored (w : World) (es es2 : List IndexEntry) :
    (run { w with remote := .listing es }).fx.fsOps = [] ∧
    (run { w with remote := .listing es }).fx.files = w.files ∧
    run { w with remote := .listing es } = run { w with remote := .listing es2 } := by
  refine ⟨by rw [run_fx], by rw [run_fx], ?_⟩
  cases h : w.installed.lookup "@octokit/rest" with
  | none =>
    rw [run_missing { w with remote := .listing es } h,
      run_missing { w with remote := .listing es2 } h]
  | some ex =>
    rw [run_installed { w with remote := .listing es } ex h,
      run_installed { w with remote := .listing es2 } ex h]
    rfl

/-- C6: for every environment and every remote listing, once the script's
dependency resolves, a second run started from the files the first run left,
against the unchanged remote source, completes with exit code 0 without any
file write or other filesystem call, and leaves the files exactly as the first
run left them: the behaviour the specification calls `Unchanged`. -/
theorem second_run_unchanged (w : World) (hdep : dependencyInstalled w) :
    (afterRun w).remote = w.remote ∧ (afterRun w).env = w.env ∧
    exitCode (run (afterRun w)) = 0 ∧
    writeCount (run (afterRun w)) = 0 ∧ (run (afterRun w)).fx.fsOps = [] ∧
    (run (afterRun w)).fx.files = (run w).fx.files := by
  obtain ⟨ex, h⟩ := installed_lookup w hdep
  have h2 : (afterRun w).installed.lookup "@octokit/rest" = some ex := h
  refine ⟨rfl, rfl, ?_, ?_, ?_, ?_⟩
  · rw [run_installed (afterRun w) ex h2]; rfl
  · rw [writeCount, run_fx]; rfl
  · rw [run_fx]
  · rw [run_fx]; rfl

/-- Witness of C6: two runs in succession where the index on disk already
holds the remote's one entry. -/
theorem second_run_unchanged_witness :
    dependencyInstalled settledWorld ∧
    exitCode (run (afterRun settledWorld)) = 0 ∧
    writeCount (run (afterRun settledWorld)) = 0 ∧
    (run (afterRun settledWorld)).fx.files = (run settledWorld).fx.files :=
  ⟨by decide,
   (second_run_unchanged settledWorld (by decide)).2.2.1,
   (second_run_unchanged settledWorld (by decide)).2.2.2.1,
   (second_run_unchanged settledWorld (by decide)).2.2.2.2.2⟩

/-- C7 as stated fails: the remote returns the single entry `a.txt` and no
local index exists; the run completes, yet it has performed no file write and
no file exists at any path afterwards, so no index file was created. -/
theorem first_run_creates_nothing_counterexample :
    exitCode (run firstRunWorld) = 0 ∧ writeCount (run firstRunWorld) ≠ 1 ∧
    ¬ ∃ p d, (run firstRunWorld).fx.files.lookup p = some d := by
  refine ⟨by decide, by decide, ?_⟩
  rintro ⟨p, d, h⟩
  rw [run_fx] at h
  cases h

/-- C7 amended: when the remote returns a listing and no file exists at a path,
no file exists at that path after the run; whether or not the listing differs
from what is on disk, the run performs no file write and leaves the files as
they were. -/
theorem run_never_writes (w : World) (es : List IndexEntry) (p : String)
    (hremote : w.remote = .listing es) (habsent : w.files.lookup p = none) :
    (run w).fx.files.lookup p = none ∧ writeCount (run w) = 0 ∧
    (run w).fx.files = w.files ∧ (run w).fx.requests = [] := by
  obtain ⟨env, installed, files, remote⟩ := w
  subst hremote
  refine ⟨?_, ?_, ?_, ?_⟩
  · rw [run_fx]; exact habsent
  · rw [writeCount, run_fx]; rfl
  · rw [run_fx]
  · rw [run_fx]

/-- Witness of C7 amended, in the first-run scenario at the path
`index.json`. -/
theorem run_never_writes_witness :
    firstRunWorld.remote = .listing [⟨"a.txt", "a.txt", "u1", "T1"⟩] ∧
    firstRunWorld.files.lookup "index.json" = none ∧
    (run firstRunWorld).fx.files.lookup "index.json" = none ∧
    writeCount (run firstRunWorld) = 0 :=
  ⟨by decide, by decide,
   (run_never_writes firstRunWorld [⟨"a.txt", "a.txt", "u1", "T1"⟩] "index.json"
      (by decide) (by decide)).1,
   (run_never_writes firstRunWorld [⟨"a.txt", "a.txt", "u1", "T1"⟩] "index.json"
      (by decide) (by decide)).2.1⟩

end UpdateIndex
